import Mathlib

/-!
Shallow embedding of `src/environment.rs` from wez/client-toolkit: the
Wayland environment management layer.  The embedding models

* `GlobalEvent` (from wayland-client) as delivered to the registry callback;
* the `GlobalHandler` / `MultiGlobalHandler` slot states, with `SimpleGlobal`
  embedded from its source implementation;
* the struct generated by `declare_environment!` as an association list of
  single slots and multi slots keyed by interface name, with its generated
  `__process_event` dispatcher;
* `Rc<RefCell<E>>` as a cell carrying a runtime borrow flag, so that the
  RefCell borrow discipline (`borrow()` panics while a mutable borrow is
  live, `borrow_mut()` panics while any borrow is live) is explicit;
* the `Environment` facade methods `get_global`, `require_global`,
  `get_all_globals`, `with_extras`, and `Clone`;
* the registry callback `my_cb` and the two-roundtrip construction sequence
  of `init_environment!`.
-/

namespace Sctk

/-- A bound protocol object, the model of `Attached<I>` as produced by
`registry.bind::<I>(version, id)`. -/
structure Binding where
  interface : String
  id : Nat
  version : Nat
deriving DecidableEq, Repr

/-- Model of `registry.bind::<I>(version, id)`: binds the advertised global
`id` at the chosen `version` for the interface named by `I`. -/
def WlRegistry.bind (interface : String) (version : Nat) (id : Nat) : Binding :=
  { interface := interface, id := id, version := version }

/-- Model of `GlobalEvent` from wayland-client: a registry notification. -/
inductive GlobalEvent where
  | new (id : Nat) (interface : String) (version : Nat)
  | removed (id : Nat) (interface : String)
deriving DecidableEq, Repr

/-- State of a `SimpleGlobal<I>` handler: `struct SimpleGlobal<I> { global: Option<Attached<I>> }`. -/
structure SimpleGlobal where
  global : Option Binding
deriving DecidableEq, Repr

/-- Constructor `SimpleGlobal::new()`. -/
def SimpleGlobal.new : SimpleGlobal := { global := none }

/-- Method `SimpleGlobal::created`: `self.global = Some((*registry.bind::<I>(version, id)).clone())`.
The `interface` argument is the slot's declared interface name (the type
parameter `I` in the source). -/
def SimpleGlobal.created (_s : SimpleGlobal) (interface : String) (id : Nat)
    (version : Nat) : SimpleGlobal :=
  { global := some (WlRegistry.bind interface version id) }

/-- Method `SimpleGlobal::get`: `self.global.clone()`. -/
def SimpleGlobal.get (s : SimpleGlobal) : Option Binding :=
  s.global

/-- Modelled from the spec: state of a `MultiGlobalHandler<I>` implementation.
The repository's `src/` contains only the `MultiGlobalHandler` trait; its
implementations (e.g. an output handler) live outside `src/`.  Per spec §4.2
the handler keeps a live collection keyed by id, in insertion order. -/
structure MultiGlobalState where
  instances : List (Nat × Binding)
deriving DecidableEq, Repr

/-- Modelled from the spec: `MultiGlobalHandler::created` binds and inserts
keyed by `id`; if `id` is already present the call replaces, not duplicates. -/
def MultiGlobalState.created (m : MultiGlobalState) (interface : String) (id : Nat)
    (version : Nat) : MultiGlobalState :=
  let b := WlRegistry.bind interface version id
  if (m.instances.lookup id).isSome then
    { instances := m.instances.map (fun p => if p.1 = id then (id, b) else p) }
  else
    { instances := m.instances ++ [(id, b)] }

/-- Modelled from the spec: `MultiGlobalHandler::removed` removes the entry
for `id` if present; no-op otherwise. -/
def MultiGlobalState.removed (m : MultiGlobalState) (id : Nat) : MultiGlobalState :=
  { instances := m.instances.filter (fun p => p.1 ≠ id) }

/-- Modelled from the spec: `MultiGlobalHandler::get_all` returns all live
instances in insertion order. -/
def MultiGlobalState.get_all (m : MultiGlobalState) : List Binding :=
  m.instances.map (·.2)

/-- The struct generated by `declare_environment!`: one field per declared
single global (a boxed `GlobalHandler`, here a `SimpleGlobal` state), one per
declared multi global, keyed by the declared interface's `NAME`.  The extras
fields are abstracted as a single value of a type parameter. -/
structure EnvState (X : Type) where
  singles : List (String × SimpleGlobal)
  multis : List (String × MultiGlobalState)
  extras : X
deriving DecidableEq, Repr

/-- Update the first slot with the given interface name, leaving the slot
list otherwise unchanged (the generated `match` dispatches to the first arm
whose `NAME` equals the event's interface string). -/
def updateSlot {α : Type} (slots : List (String × α)) (name : String) (f : α → α) :
    List (String × α) :=
  match slots with
  | [] => []
  | (n, a) :: rest =>
    if n = name then (n, f a) :: rest
    else (n, a) :: updateSlot rest name f

/-- The `__process_event` method generated by `declare_environment!`:
match on the event, then match the interface string against each declared
single slot's `NAME`, then each multi slot's `NAME`, with a catch-all arm
that ignores unknown globals.  On `Removed`, only multi slots are matched. -/
def EnvState.__process_event {X : Type} (st : EnvState X) (ev : GlobalEvent) :
    EnvState X :=
  match ev with
  | .new id interface version =>
    if (st.singles.lookup interface).isSome then
      let f := fun (h : SimpleGlobal) => h.created interface id version
      { st with singles := updateSlot st.singles interface f }
    else if (st.multis.lookup interface).isSome then
      let f := fun (h : MultiGlobalState) => h.created interface id version
      { st with multis := updateSlot st.multis interface f }
    else st
  | .removed id interface =>
    if (st.multis.lookup interface).isSome then
      { st with multis := updateSlot st.multis interface (fun h => h.removed id) }
    else st

/-- Runtime borrow state of a `RefCell`: unborrowed, shared-borrowed with a
count, or exclusively borrowed. -/
inductive BorrowFlag where
  | free
  | reading (n : Nat)
  | writing
deriving DecidableEq, Repr

/-- Operation `RefCell::borrow()`: succeeds (returning the new flag) unless an
exclusive borrow is live, in which case it panics (`BorrowError`). -/
def BorrowFlag.tryBorrow : BorrowFlag → Option BorrowFlag
  | .free => some (.reading 1)
  | .reading n => some (.reading (n + 1))
  | .writing => none

/-- Operation `RefCell::borrow_mut()`: succeeds only from the unborrowed state,
otherwise panics (`BorrowMutError`). -/
def BorrowFlag.tryBorrowMut : BorrowFlag → Option BorrowFlag
  | .free => some .writing
  | .reading _ => none
  | .writing => none

/-- The shared cell `Rc<RefCell<E>>` held in `Environment::inner`: the
environment state together with the cell's runtime borrow flag. -/
structure EnvCell (X : Type) where
  flag : BorrowFlag
  state : EnvState X
deriving DecidableEq, Repr

/-- A panic raised by this layer: a reentrant RefCell borrow conflict, a
missing mandatory global (`require_global`), or a failed initialization
roundtrip (`.expect` on `sync_roundtrip`). -/
inductive Panic where
  | borrowConflict
  | missingGlobal (msg : String)
  | roundtripFailed (msg : String)
deriving DecidableEq, Repr

/-- Accessor `Environment::get_global::<I>()`: `self.inner.borrow().get()`.  The
shared borrow is taken at call time (panicking if the cell is exclusively
borrowed), the generated `GlobalHandler<I>` impl forwards to the declared
slot's `get()`, and the borrow guard is dropped before returning, leaving
the cell as it was. -/
def get_global {X : Type} (c : EnvCell X) (interface : String) :
    Except Panic (Option Binding × EnvCell X) :=
  match c.flag.tryBorrow with
  | none => .error .borrowConflict
  | some _ => .ok ((c.state.singles.lookup interface).bind SimpleGlobal.get, c)

/-- Accessor `Environment::require_global::<I>()`: like `get_global`, but panics with
`"[SCTK] A missing global was required: {}", I::NAME` when the slot is
empty. -/
def require_global {X : Type} (c : EnvCell X) (interface : String) :
    Except Panic (Binding × EnvCell X) :=
  match c.flag.tryBorrow with
  | none => .error .borrowConflict
  | some _ =>
    match (c.state.singles.lookup interface).bind SimpleGlobal.get with
    | some g => .ok (g, c)
    | none => .error (.missingGlobal ("[SCTK] A missing global was required: " ++ interface))

/-- Accessor `Environment::get_all_globals::<I>()`: `self.inner.borrow().get_all()`,
forwarded to the declared multi slot. -/
def get_all_globals {X : Type} (c : EnvCell X) (interface : String) :
    Except Panic (List Binding × EnvCell X) :=
  match c.flag.tryBorrow with
  | none => .error .borrowConflict
  | some _ =>
    .ok (((c.state.multis.lookup interface).map MultiGlobalState.get_all).getD [], c)

/-- Method `Environment::with_extras`: takes `borrow_mut()` on the cell (panicking
on a conflict), runs the closure on the exclusively borrowed state, then
drops the guard, restoring the cell's flag.  The closure receives the cell
as it stands while the exclusive borrow is live (flag `.writing`), so any
accessor it invokes on a handle sharing this state observes that flag; it
returns its result together with the possibly mutated state. -/
def with_extras {X T : Type} (c : EnvCell X) (f : EnvCell X → T × EnvState X) :
    Except Panic (T × EnvCell X) :=
  match c.flag.tryBorrowMut with
  | none => .error .borrowConflict
  | some fl =>
    let r := f { flag := fl, state := c.state }
    .ok (r.1, { flag := c.flag, state := r.2 })

/-- The registry callback installed by `init_environment!`:

```
let my_cb = move |event, registry| {
    let mut inner = my_inner.borrow_mut();
    inner.__process_event(event, registry);
};
```

It takes `borrow_mut()` on the shared cell (panicking on a conflict), calls
`__process_event` — which invokes the matching handler's `created`/`removed`
callback — while that exclusive borrow is live, and drops the guard only
when the closure body ends.  The second component of the result records the
cell's borrow flag in effect while `__process_event` (and hence every
handler callback it makes) runs. -/
def my_cb {X : Type} (c : EnvCell X) (ev : GlobalEvent) :
    Except Panic (EnvCell X × BorrowFlag) :=
  match c.flag.tryBorrowMut with
  | none => .error .borrowConflict
  | some fl =>
    .ok ({ flag := c.flag, state := c.state.__process_event ev }, fl)

/-- The transport collaborator: an oracle giving, for each successive
`sync_roundtrip` call, either a transport error or the list of registry
notifications delivered (through `my_cb`) during that roundtrip, plus a
cursor counting the roundtrips performed so far. -/
structure Transport where
  rounds : Nat → Except String (List GlobalEvent)
  cursor : Nat

/-- Operation `queue.sync_roundtrip(..)`: performs one blocking roundtrip, consuming
the next round of the oracle. -/
def Transport.sync_roundtrip (t : Transport) :
    Except String (List GlobalEvent) × Transport :=
  (t.rounds t.cursor, { rounds := t.rounds, cursor := t.cursor + 1 })

/-- Deliver a list of registry notifications to the shared cell, each
through `my_cb` (as the event queue does during a roundtrip); stops with
the panic if any delivery panics. -/
def deliverAll {X : Type} (c : EnvCell X) : List GlobalEvent → Except Panic (EnvCell X)
  | [] => .ok c
  | ev :: rest =>
    match my_cb c ev with
    | .error p => .error p
    | .ok (c', _) => deliverAll c' rest

/-- The body of `init_environment!`: wrap the initial environment value in a
fresh `Rc<RefCell<_>>`, install `my_cb`, then perform two blocking
`sync_roundtrip` calls in order — the first delivering the server's global
list, the second letting handlers finish their own requests — each followed
by `.expect(..)`, which panics on a transport error.  Only if both succeed
is the wrapped `Environment` returned. -/
def init_environment {X : Type} (st0 : EnvState X) (t : Transport) :
    Except Panic (EnvCell X × Transport) :=
  let c0 : EnvCell X := { flag := .free, state := st0 }
  let r1 := t.sync_roundtrip
  match r1.1 with
  | .error _ => .error (.roundtripFailed "SCTK: Initial roundtrip failed.")
  | .ok evs1 =>
    match deliverAll c0 evs1 with
    | .error p => .error p
    | .ok c1 =>
      let r2 := r1.2.sync_roundtrip
      match r2.1 with
      | .error _ => .error (.roundtripFailed "SCTK: initial roundtrip failed.")
      | .ok evs2 =>
        match deliverAll c1 evs2 with
        | .error p => .error p
        | .ok c2 => .ok (c2, r2.2)

/-- Handle type `Environment<E>`: a `GlobalManager` handle and an `Rc`
pointer to the shared cell, modelled as an address into a store of cells. -/
structure Environment where
  manager : Nat
  inner : Nat

/-- A store assigning to every `Rc` address the cell it points to. -/
def CellStore (X : Type) := Nat → EnvCell X

/-- Write a cell at an address of the store (a mutation of the pointed-to
cell, as dispatch or `with_extras` performs through any handle). -/
def CellStore.write {X : Type} (s : CellStore X) (a : Nat) (c : EnvCell X) :
    CellStore X :=
  fun x => if x = a then c else s x

/-- Clone for `Environment`: clones the `GlobalManager` handle and the
`Rc` pointer — the same address, no new cell is allocated. -/
def Environment.clone (e : Environment) : Environment :=
  { manager := e.manager, inner := e.inner }

/-- Accessor `get_global` invoked through a handle: dereference the handle's `Rc`
pointer in the store and read the cell. -/
def Environment.get_global_via {X : Type} (s : CellStore X) (e : Environment)
    (interface : String) : Except Panic (Option Binding × EnvCell X) :=
  get_global (s e.inner) interface

/-- Example declared environment: one single slot (`wl_compositor`, no
binding stored yet) and one multi slot (`wl_output`, empty). -/
def envA : EnvState Unit where
  singles := [("wl_compositor", SimpleGlobal.new)]
  multis := [("wl_output", { instances := [] })]
  extras := ()

/-- Example declared environment whose single slot already holds the binding
from an advertisement of `wl_compositor` at id 1, version 4. -/
def envB : EnvState Unit where
  singles := [("wl_compositor", { global := some (WlRegistry.bind "wl_compositor" 4 1) })]
  multis := []
  extras := ()

/-- The state of envA after dispatching the advertisement of `wl_compositor`
at id 1, version 1. -/
def envA1 : EnvState Unit :=
  envA.__process_event (.new 1 "wl_compositor" 1)

/-- The state reached by dispatching, in order, a list of GlobalAdded
notifications `(id, version)` all carrying the interface name `i`. -/
def dispatchNews {X : Type} (st : EnvState X) (i : String) (evs : List (Nat × Nat)) :
    EnvState X :=
  evs.foldl (fun s p => s.__process_event (.new p.1 i p.2)) st

/-- Example transport: the first roundtrip delivers one advertisement for
`wl_compositor`, every later roundtrip delivers nothing, none errors. -/
def transportA : Transport where
  rounds := fun n => if n = 0 then .ok [.new 1 "wl_compositor" 1] else .ok []
  cursor := 0

theorem lookup_updateSlot {α : Type} (slots : List (String × α)) (name : String)
    (f : α → α) : (updateSlot slots name f).lookup name = (slots.lookup name).map f := by
  induction slots with
  | nil => simp [updateSlot]
  | cons p rest ih =>
    obtain ⟨n, a⟩ := p
    by_cases h : n = name
    · subst h
      simp [updateSlot, List.lookup]
    · have hbeq : (name == n) = false := by
        simp [beq_eq_false_iff_ne]
        exact fun hh => h hh.symm
      simp [updateSlot, h, List.lookup, hbeq, ih]

theorem my_cb_free {X : Type} (st : EnvState X) (ev : GlobalEvent) :
    my_cb { flag := .free, state := st } ev =
      .ok ({ flag := .free, state := st.__process_event ev }, .writing) := rfl

theorem deliverAll_free {X : Type} (evs : List GlobalEvent) :
    ∀ st : EnvState X, deliverAll { flag := .free, state := st } evs =
      .ok { flag := .free, state := evs.foldl EnvState.__process_event st } := by
  induction evs with
  | nil => intro st; rfl
  | cons ev rest ih =>
    intro st
    simp only [deliverAll, my_cb_free, List.foldl]
    exact ih (st.__process_event ev)

theorem process_new_single {X : Type} (st : EnvState X) (i : String) (h : SimpleGlobal)
    (hs : st.singles.lookup i = some h) (id version : Nat) :
    (st.__process_event (.new id i version)).singles.lookup i =
      some { global := some (WlRegistry.bind i version id) } := by
  simp [EnvState.__process_event, hs, lookup_updateSlot, SimpleGlobal.created]

theorem foldl_new_single_lookup {X : Type} (i : String) (idl vl : Nat) :
    ∀ evs : List (Nat × Nat), evs.getLast? = some (idl, vl) →
    ∀ (st : EnvState X) (h : SimpleGlobal), st.singles.lookup i = some h →
    ((evs.foldl (fun s p => s.__process_event (.new p.1 i p.2)) st).singles.lookup i =
      some { global := some (WlRegistry.bind i vl idl) }) := by
  intro evs
  induction evs with
  | nil => intro hlast; simp at hlast
  | cons p rest ih =>
    intro hlast st h hs
    cases rest with
    | nil =>
      have hp : p = (idl, vl) := by simpa using hlast
      subst hp
      simpa only [List.foldl] using process_new_single st i h hs idl vl
    | cons q rest2 =>
      have hl2 : (q :: rest2).getLast? = some (idl, vl) := by
        rw [List.getLast?_cons_cons] at hlast
        exact hlast
      simp only [List.foldl]
      exact ih hl2 _ _ (process_new_single st i h hs p.1 p.2)

/-- C1, counterexample: the claim says the dispatcher releases its exclusive
borrow of the shared state before invoking the handler's created callback,
so a handler callback could call an Environment accessor without a
reentrant-borrow conflict.  At the concrete input (a fresh unborrowed cell
and an advertisement matching the declared single slot), the borrow flag in
effect while the handler callback runs is `.writing` — the exclusive borrow
taken by `my_cb` is still held, not released — and `get_global` invoked
under that flag fails with a borrow conflict. -/
theorem C1_counterexample :
    (my_cb { flag := .free, state := envA } (.new 1 "wl_compositor" 1)).map Prod.snd =
      .ok BorrowFlag.writing ∧
    BorrowFlag.writing ≠ BorrowFlag.free ∧
    get_global { flag := BorrowFlag.writing, state := envA1 } "wl_compositor" =
      .error Panic.borrowConflict :=
  ⟨rfl, by decide, rfl⟩

/-- C1, amended: when the dispatcher delivers a registry notification to the
shared environment state, it acquires its own exclusive borrow and holds it
across the handler's created/removed callback, releasing it only after
`__process_event` returns; consequently an Environment accessor invoked on
the same state while the handler callback runs fails with a reentrant
borrow conflict. -/
theorem C1_dispatch_borrow_held {X : Type} (c : EnvCell X) (ev : GlobalEvent)
    (hq : c.flag = .free) (i : String) :
    my_cb c ev = .ok ({ flag := .free, state := c.state.__process_event ev }, .writing) ∧
    get_global { flag := .writing, state := c.state.__process_event ev } i =
      .error .borrowConflict ∧
    require_global { flag := .writing, state := c.state.__process_event ev } i =
      .error .borrowConflict ∧
    get_all_globals { flag := .writing, state := c.state.__process_event ev } i =
      .error .borrowConflict := by
  obtain ⟨fl, st⟩ := c
  simp only at hq
  subst hq
  exact ⟨rfl, rfl, rfl, rfl⟩

/-- Witness for C1_dispatch_borrow_held at a concrete cell and event. -/
theorem C1_witness :
    my_cb { flag := .free, state := envA } (.new 1 "wl_compositor" 1) =
      .ok ({ flag := .free, state := envA1 }, .writing) ∧
    get_global { flag := .writing, state := envA1 } "wl_compositor" =
      .error .borrowConflict ∧
    require_global { flag := .writing, state := envA1 } "wl_compositor" =
      .error .borrowConflict ∧
    get_all_globals { flag := .writing, state := envA1 } "wl_compositor" =
      .error .borrowConflict :=
  C1_dispatch_borrow_held { flag := .free, state := envA } (.new 1 "wl_compositor" 1)
    rfl "wl_compositor"

/-- C2: for every sequence of GlobalAdded notifications whose interface name
matches a declared single slot handled by SimpleGlobal, after dispatching
the whole sequence the slot holds the binding produced from the last such
notification (each created call replaces the previously stored binding),
and get_global returns it. -/
theorem C2_last_advertisement_wins {X : Type} (st : EnvState X) (i : String)
    (h : SimpleGlobal) (hs : st.singles.lookup i = some h)
    (evs : List (Nat × Nat)) (idl vl : Nat) (hlast : evs.getLast? = some (idl, vl)) :
    ((dispatchNews st i evs).singles.lookup i =
      some { global := some (WlRegistry.bind i vl idl) }) ∧
    get_global { flag := .free, state := dispatchNews st i evs } i =
      .ok (some (WlRegistry.bind i vl idl), { flag := .free, state := dispatchNews st i evs }) := by
  have hmain : (dispatchNews st i evs).singles.lookup i =
      some { global := some (WlRegistry.bind i vl idl) } :=
    foldl_new_single_lookup i idl vl evs hlast st h hs
  refine ⟨hmain, ?_⟩
  simp [get_global, BorrowFlag.tryBorrow, hmain, SimpleGlobal.get]

/-- Witness for C2_last_advertisement_wins: two advertisements for the
declared single slot; the stored binding is the one from the second. -/
theorem C2_witness :
    ((dispatchNews envA "wl_compositor" [(1, 3), (2, 4)]).singles.lookup "wl_compositor" =
      some { global := some (WlRegistry.bind "wl_compositor" 4 2) }) ∧
    get_global { flag := .free, state := dispatchNews envA "wl_compositor" [(1, 3), (2, 4)] }
        "wl_compositor" =
      .ok (some (WlRegistry.bind "wl_compositor" 4 2),
        { flag := .free, state := dispatchNews envA "wl_compositor" [(1, 3), (2, 4)] }) :=
  C2_last_advertisement_wins envA "wl_compositor" SimpleGlobal.new rfl
    [(1, 3), (2, 4)] 2 4 rfl

/-- C3: for a declared single slot holding no binding, require_global fails
with the diagnostic message `[SCTK] A missing global was required: ` followed
by the exact interface name (so the message contains that name); for a slot
holding a binding, require_global returns that binding, the same value
get_global returns as some. -/
theorem C3_require_global_diagnostic {X : Type} (st : EnvState X) (i : String) :
    ((st.singles.lookup i).bind SimpleGlobal.get = none →
      require_global { flag := .free, state := st } i =
        .error (.missingGlobal ("[SCTK] A missing global was required: " ++ i)) ∧
      ∃ p, "[SCTK] A missing global was required: " ++ i = p ++ i) ∧
    (∀ g, (st.singles.lookup i).bind SimpleGlobal.get = some g →
      require_global { flag := .free, state := st } i =
        .ok (g, { flag := .free, state := st }) ∧
      get_global { flag := .free, state := st } i =
        .ok (some g, { flag := .free, state := st })) := by
  constructor
  · intro hnone
    refine ⟨?_, ⟨"[SCTK] A missing global was required: ", rfl⟩⟩
    simp [require_global, BorrowFlag.tryBorrow, hnone]
  · intro g hsome
    constructor
    · simp [require_global, BorrowFlag.tryBorrow, hsome]
    · simp [get_global, BorrowFlag.tryBorrow, hsome]

/-- Witness for C3_require_global_diagnostic: the empty slot of envA fails
with the diagnostic naming wl_compositor, and the full slot of envB returns
its stored binding. -/
theorem C3_witness :
    (require_global { flag := .free, state := envA } "wl_compositor" =
      .error (.missingGlobal ("[SCTK] A missing global was required: " ++ "wl_compositor")) ∧
      ∃ p, "[SCTK] A missing global was required: " ++ "wl_compositor" = p ++ "wl_compositor") ∧
    require_global { flag := .free, state := envB } "wl_compositor" =
      .ok (WlRegistry.bind "wl_compositor" 4 1, { flag := .free, state := envB }) ∧
    get_global { flag := .free, state := envB } "wl_compositor" =
      .ok (some (WlRegistry.bind "wl_compositor" 4 1), { flag := .free, state := envB }) :=
  ⟨(C3_require_global_diagnostic envA "wl_compositor").1 rfl,
   (C3_require_global_diagnostic envB "wl_compositor").2 (WlRegistry.bind "wl_compositor" 4 1) rfl⟩

/-- C4: Environment construction performs exactly two blocking
synchronization roundtrips against the transport, in order — it consumes
the transport's rounds at the cursor and at cursor + 1 and leaves the
cursor advanced by exactly two.  If either roundtrip returns an error,
construction panics and no Environment cell is produced; only after both
rounds succeed is the wrapped cell returned, holding the state reached by
dispatching the delivered notifications in order. -/
theorem C4_two_roundtrips {X : Type} (st0 : EnvState X) (t : Transport) :
    (∀ e, t.rounds t.cursor = .error e →
      init_environment st0 t = .error (.roundtripFailed "SCTK: Initial roundtrip failed.")) ∧
    (∀ evs1 e, t.rounds t.cursor = .ok evs1 → t.rounds (t.cursor + 1) = .error e →
      init_environment st0 t = .error (.roundtripFailed "SCTK: initial roundtrip failed.")) ∧
    (∀ evs1 evs2, t.rounds t.cursor = .ok evs1 → t.rounds (t.cursor + 1) = .ok evs2 →
      init_environment st0 t =
        .ok ({ flag := .free, state := (evs1 ++ evs2).foldl EnvState.__process_event st0 },
          { rounds := t.rounds, cursor := t.cursor + 2 })) := by
  refine ⟨?_, ?_, ?_⟩
  · intro e he
    simp [init_environment, Transport.sync_roundtrip, he]
  · intro evs1 e h1 h2
    simp [init_environment, Transport.sync_roundtrip, h1, h2, deliverAll_free]
  · intro evs1 evs2 h1 h2
    simp [init_environment, Transport.sync_roundtrip, h1, h2, deliverAll_free,
      List.foldl_append]

/-- Witness for C4_two_roundtrips: a transport whose first round delivers
one advertisement and whose second delivers nothing; construction succeeds,
returning the dispatched state and a cursor advanced by two. -/
theorem C4_witness :
    init_environment envA transportA =
      .ok ({ flag := .free, state := ([GlobalEvent.new 1 "wl_compositor" 1] ++ ([] : List GlobalEvent)).foldl EnvState.__process_event envA },
        { rounds := transportA.rounds, cursor := transportA.cursor + 2 }) :=
  (C4_two_roundtrips envA transportA).2.2 [.new 1 "wl_compositor" 1] [] rfl rfl

/-- C5: a GlobalAdded or GlobalRemoved notification whose interface name
matches no declared single or multi slot leaves the environment state
unchanged, is dispatched by the callback without error, and such a global
never appears in any accessor result: get_global for that name yields none
and get_all_globals yields the empty list. -/
theorem C5_unknown_interface_ignored {X : Type} (st : EnvState X) (i : String)
    (id version rid : Nat)
    (hs : st.singles.lookup i = none) (hm : st.multis.lookup i = none) :
    st.__process_event (.new id i version) = st ∧
    st.__process_event (.removed rid i) = st ∧
    my_cb { flag := .free, state := st } (.new id i version) =
      .ok ({ flag := .free, state := st }, .writing) ∧
    my_cb { flag := .free, state := st } (.removed rid i) =
      .ok ({ flag := .free, state := st }, .writing) ∧
    get_global { flag := .free, state := st } i = .ok (none, { flag := .free, state := st }) ∧
    get_all_globals { flag := .free, state := st } i =
      .ok ([], { flag := .free, state := st }) := by
  have h1 : st.__process_event (.new id i version) = st := by
    simp [EnvState.__process_event, hs, hm]
  have h2 : st.__process_event (.removed rid i) = st := by
    simp [EnvState.__process_event, hm]
  refine ⟨h1, h2, ?_, ?_, ?_, ?_⟩
  · rw [my_cb_free, h1]
  · rw [my_cb_free, h2]
  · simp [get_global, BorrowFlag.tryBorrow, hs]
  · simp [get_all_globals, BorrowFlag.tryBorrow, hm]

/-- Witness for C5_unknown_interface_ignored at a concrete undeclared
interface name. -/
theorem C5_witness :
    envA.__process_event (.new 9 "zxdg_unknown_v1" 1) = envA ∧
    envA.__process_event (.removed 9 "zxdg_unknown_v1") = envA ∧
    my_cb { flag := .free, state := envA } (.new 9 "zxdg_unknown_v1" 1) =
      .ok ({ flag := .free, state := envA }, .writing) ∧
    my_cb { flag := .free, state := envA } (.removed 9 "zxdg_unknown_v1") =
      .ok ({ flag := .free, state := envA }, .writing) ∧
    get_global { flag := .free, state := envA } "zxdg_unknown_v1" =
      .ok (none, { flag := .free, state := envA }) ∧
    get_all_globals { flag := .free, state := envA } "zxdg_unknown_v1" =
      .ok ([], { flag := .free, state := envA }) :=
  C5_unknown_interface_ignored envA "zxdg_unknown_v1" 9 1 9 rfl rfl

/-- C6: a GlobalRemoved notification whose interface name matches a declared
single slot (the name belonging to no multi slot) invokes no handler and
leaves the environment state — in particular the single slot's stored
binding — unchanged: single-global removal is intentionally ignored. -/
theorem C6_single_removal_ignored {X : Type} (st : EnvState X) (i : String) (id : Nat)
    (h : SimpleGlobal) (hs : st.singles.lookup i = some h) (hm : st.multis.lookup i = none) :
    st.__process_event (.removed id i) = st ∧
    (st.__process_event (.removed id i)).singles.lookup i = some h ∧
    get_global { flag := .free, state := st.__process_event (.removed id i) } i =
      .ok (h.get, { flag := .free, state := st.__process_event (.removed id i) }) := by
  have h2 : st.__process_event (.removed id i) = st := by
    simp [EnvState.__process_event, hm]
  refine ⟨h2, ?_, ?_⟩
  · rw [h2]
    exact hs
  · rw [h2]
    simp [get_global, BorrowFlag.tryBorrow, hs]

/-- Witness for C6_single_removal_ignored: removing the advertised
wl_compositor single leaves its stored binding in place. -/
theorem C6_witness :
    envB.__process_event (.removed 1 "wl_compositor") = envB ∧
    (envB.__process_event (.removed 1 "wl_compositor")).singles.lookup "wl_compositor" =
      some { global := some (WlRegistry.bind "wl_compositor" 4 1) } ∧
    get_global { flag := .free, state := envB.__process_event (.removed 1 "wl_compositor") }
        "wl_compositor" =
      .ok (SimpleGlobal.get { global := some (WlRegistry.bind "wl_compositor" 4 1) },
        { flag := .free, state := envB.__process_event (.removed 1 "wl_compositor") }) :=
  C6_single_removal_ignored envB "wl_compositor" 1
    { global := some (WlRegistry.bind "wl_compositor" 4 1) } rfl rfl

/-- C7: for a declared single slot, get_global returns exactly the result of
the corresponding handler's get — none when no advertisement has been
dispatched, some binding otherwise — and performs no mutation of the
environment state: the cell it hands back is the cell it was given. -/
theorem C7_get_global_forwards {X : Type} (st : EnvState X) (i : String)
    (h : SimpleGlobal) (hs : st.singles.lookup i = some h) :
    get_global { flag := .free, state := st } i =
      .ok (h.get, { flag := .free, state := st }) := by
  simp [get_global, BorrowFlag.tryBorrow, hs]

/-- Witness for C7_get_global_forwards: the empty slot of envA gives its
handler's get (none), the full slot of envB gives its handler's get (the
stored binding); neither call changes the cell. -/
theorem C7_witness :
    get_global { flag := .free, state := envA } "wl_compositor" =
      .ok (SimpleGlobal.new.get, { flag := .free, state := envA }) ∧
    get_global { flag := .free, state := envB } "wl_compositor" =
      .ok (SimpleGlobal.get { global := some (WlRegistry.bind "wl_compositor" 4 1) },
        { flag := .free, state := envB }) :=
  ⟨C7_get_global_forwards envA "wl_compositor" SimpleGlobal.new rfl,
   C7_get_global_forwards envB "wl_compositor"
     { global := some (WlRegistry.bind "wl_compositor" 4 1) } rfl⟩

/-- C8: with_extras on an unborrowed cell grants the closure exclusive
access (the closure runs on the cell under the exclusive flag), releases
the exclusive borrow when the closure's scope exits, and returns the
closure's result together with the state the closure produced; with_extras
invoked while another exclusive access window on the same state is already
open fails with a borrow conflict instead of proceeding. -/
theorem C8_with_extras_scoped {X T : Type} (c : EnvCell X) (f : EnvCell X → T × EnvState X) :
    (c.flag = .free →
      with_extras c f =
        .ok ((f { flag := .writing, state := c.state }).1,
          { flag := .free, state := (f { flag := .writing, state := c.state }).2 })) ∧
    (c.flag = .writing → with_extras c f = .error .borrowConflict) := by
  obtain ⟨fl, st⟩ := c
  constructor
  · intro hq
    simp only at hq
    subst hq
    rfl
  · intro hq
    simp only at hq
    subst hq
    rfl

/-- Witness for C8_with_extras_scoped: on the unborrowed cell the closure's
result and state come back with the borrow released; on a cell whose
exclusive window is already open the call fails. -/
theorem C8_witness :
    with_extras { flag := .free, state := envA } (fun c => (c.flag, c.state)) =
      .ok (BorrowFlag.writing, { flag := .free, state := envA }) ∧
    with_extras { flag := .writing, state := envA } (fun c => (c.flag, c.state)) =
      .error .borrowConflict :=
  ⟨(C8_with_extras_scoped { flag := .free, state := envA } (fun c => (c.flag, c.state))).1 rfl,
   (C8_with_extras_scoped { flag := .writing, state := envA } (fun c => (c.flag, c.state))).2 rfl⟩

/-- C9: cloning an Environment handle copies the manager handle and the Rc
pointer, not the pointed-to cell: both handles dereference the same address,
get_global observed through the clone equals get_global observed through
the original for every store, and a write to the cell through the clone's
pointer is the cell every other handle sharing that pointer reads. -/
theorem C9_clone_shares_state {X : Type} (s : CellStore X) (e : Environment) (i : String)
    (c : EnvCell X) :
    e.clone.inner = e.inner ∧
    e.clone.manager = e.manager ∧
    Environment.get_global_via s e.clone i = Environment.get_global_via s e i ∧
    CellStore.write s e.clone.inner c e.inner = c ∧
    Environment.get_global_via (CellStore.write s e.clone.inner c) e i = get_global c i := by
  refine ⟨rfl, rfl, rfl, ?_, ?_⟩ <;>
    simp [Environment.clone, Environment.get_global_via, CellStore.write]

/-- C10: the reentrancy hazard covers the read accessors, not only a nested
with_extras: with_extras hands its closure the cell under the exclusive
flag, and each of get_global, require_global and get_all_globals invoked on
a cell in that state fails at runtime with a borrow conflict. -/
theorem C10_accessors_fail_during_with_extras {X T : Type} (c : EnvCell X)
    (f : EnvCell X → T × EnvState X) (hq : c.flag = .free) (i : String) :
    with_extras c f =
      .ok ((f { flag := .writing, state := c.state }).1,
        { flag := .free, state := (f { flag := .writing, state := c.state }).2 }) ∧
    get_global { flag := .writing, state := c.state } i = .error .borrowConflict ∧
    require_global { flag := .writing, state := c.state } i = .error .borrowConflict ∧
    get_all_globals { flag := .writing, state := c.state } i = .error .borrowConflict := by
  obtain ⟨fl, st⟩ := c
  simp only at hq
  subst hq
  exact ⟨rfl, rfl, rfl, rfl⟩

/-- Witness for C10_accessors_fail_during_with_extras at a concrete cell,
closure and interface name. -/
theorem C10_witness :
    with_extras { flag := .free, state := envB } (fun c => (c.flag, c.state)) =
      .ok (BorrowFlag.writing, { flag := .free, state := envB }) ∧
    get_global { flag := .writing, state := envB } "wl_compositor" =
      .error .borrowConflict ∧
    require_global { flag := .writing, state := envB } "wl_compositor" =
      .error .borrowConflict ∧
    get_all_globals { flag := .writing, state := envB } "wl_compositor" =
      .error .borrowConflict :=
  C10_accessors_fail_during_with_extras { flag := .free, state := envB }
    (fun c => (c.flag, c.state)) rfl "wl_compositor"

end Sctk
